import Mathlib

/-!
Verification of the public interface declared in
`src/test-project-ios/Test_Project/longhorn_mobile.h`.

The repository material under scrutiny is a declaration-only C header.  We
embed it shallowly: the C types that occur in the header, the ten function
declarations with their parameter lists and return types, the verbatim text
of the header, a model of the preprocessor include guard, and (modelled from
the spec, since no implementation is supplied) the lifecycle protocol the
host is expected to follow.
-/

namespace LonghornMobile

/-- The C types occurring in the signatures of longhorn_mobile.h. -/
inductive CType where
  | bool
  | voidTy
  | u32
  | f32
  | voidPtr
  | constCharPtr
  deriving DecidableEq, Repr

/-- Number of bits of a scalar C type in the header, when fixed by the
source (`uint32_t` and `float` are 32-bit; pointers, `bool` and `void`
have no portable bit width the header fixes). -/
def CType.bits : CType → Option Nat
  | .u32 => some 32
  | .f32 => some 32
  | _ => none

/-- Whether the type is an unsigned integer type. -/
def CType.isUnsignedInt : CType → Bool
  | .u32 => true
  | _ => false

/-- Whether the type is a raw (untyped, opaque) pointer. -/
def CType.isOpaquePointer : CType → Bool
  | .voidPtr => true
  | _ => false

/-- Whether the type is a pointer whose pointee is const-qualified. -/
def CType.isConstQualified : CType → Bool
  | .constCharPtr => true
  | _ => false

/-- Whether a parameter of this type lets the callee write through it into
the caller's memory: only a pointer to non-const data does; by-value
scalars and const pointees do not. -/
def CType.mayWriteThrough : CType → Bool
  | .voidPtr => true
  | _ => false

/-- The C surface syntax of a type as it appears in the header. -/
def CType.render : CType → String
  | .bool => "bool"
  | .voidTy => "void"
  | .u32 => "uint32_t"
  | .f32 => "float"
  | .voidPtr => "void*"
  | .constCharPtr => "const char*"

/-- A formal parameter of a declaration. -/
structure CParam where
  name : String
  type : CType
  deriving DecidableEq, Repr

/-- A C function declaration: name, parameters, return type. -/
structure CDecl where
  name : String
  params : List CParam
  ret : CType
  deriving DecidableEq, Repr

/-- The declaration bool longhorn_init(void); of the header. -/
def longhorn_init : CDecl :=
  ⟨"longhorn_init", [], CType.bool⟩

/-- The declaration bool longhorn_create_with_metal(void* metal_layer, uint32_t width, uint32_t height); of the header. -/
def longhorn_create_with_metal : CDecl :=
  ⟨"longhorn_create_with_metal",
   [⟨"metal_layer", CType.voidPtr⟩, ⟨"width", CType.u32⟩, ⟨"height", CType.u32⟩],
   CType.bool⟩

/-- The declaration bool longhorn_load_game(const char* path); of the header. -/
def longhorn_load_game : CDecl :=
  ⟨"longhorn_load_game", [⟨"path", CType.constCharPtr⟩], CType.bool⟩

/-- The declaration bool longhorn_start(void); of the header. -/
def longhorn_start : CDecl :=
  ⟨"longhorn_start", [], CType.bool⟩

/-- The declaration bool longhorn_update(void); of the header. -/
def longhorn_update : CDecl :=
  ⟨"longhorn_update", [], CType.bool⟩

/-- The declaration void longhorn_handle_touch_start(float x, float y); of the header. -/
def longhorn_handle_touch_start : CDecl :=
  ⟨"longhorn_handle_touch_start", [⟨"x", CType.f32⟩, ⟨"y", CType.f32⟩], CType.voidTy⟩

/-- The declaration void longhorn_handle_touch_move(float x, float y); of the header. -/
def longhorn_handle_touch_move : CDecl :=
  ⟨"longhorn_handle_touch_move", [⟨"x", CType.f32⟩, ⟨"y", CType.f32⟩], CType.voidTy⟩

/-- The declaration void longhorn_handle_touch_end(float x, float y); of the header. -/
def longhorn_handle_touch_end : CDecl :=
  ⟨"longhorn_handle_touch_end", [⟨"x", CType.f32⟩, ⟨"y", CType.f32⟩], CType.voidTy⟩

/-- The declaration void longhorn_resize(uint32_t width, uint32_t height); of the header. -/
def longhorn_resize : CDecl :=
  ⟨"longhorn_resize", [⟨"width", CType.u32⟩, ⟨"height", CType.u32⟩], CType.voidTy⟩

/-- The declaration void longhorn_cleanup(void); of the header. -/
def longhorn_cleanup : CDecl :=
  ⟨"longhorn_cleanup", [], CType.voidTy⟩

/-- All declarations of longhorn_mobile.h, in source order. -/
def headerDecls : List CDecl :=
  [ longhorn_init
  , longhorn_create_with_metal
  , longhorn_load_game
  , longhorn_start
  , longhorn_update
  , longhorn_handle_touch_start
  , longhorn_handle_touch_move
  , longhorn_handle_touch_end
  , longhorn_resize
  , longhorn_cleanup ]

/-- The verbatim lines of longhorn_mobile.h. -/
def headerLines : List String :=
  [ "#ifndef longhorn_mobile_h"
  , "#define longhorn_mobile_h"
  , ""
  , "#include <stdbool.h>"
  , "#include <stdint.h>"
  , ""
  , "bool longhorn_init(void);"
  , "bool longhorn_create_with_metal(void* metal_layer, uint32_t width, uint32_t height);"
  , "bool longhorn_load_game(const char* path);"
  , "bool longhorn_start(void);"
  , "bool longhorn_update(void);"
  , "void longhorn_handle_touch_start(float x, float y);"
  , "void longhorn_handle_touch_move(float x, float y);"
  , "void longhorn_handle_touch_end(float x, float y);"
  , "void longhorn_resize(uint32_t width, uint32_t height);"
  , "void longhorn_cleanup(void);"
  , ""
  , "#endif /* longhorn_mobile_h */" ]

/-- The C text of one formal parameter. -/
def CParam.render (p : CParam) : String :=
  p.type.render ++ " " ++ p.name

/-- The separator between two C parameters. -/
def commaSep : String := ", "

/-- The keyword marking an empty C parameter list. -/
def voidArg : String := "void"

/-- The suffix every prototype line ends with: close paren, semicolon. -/
def protoEnd : String := ");"

/-- The C text of the parameter list of a declaration. -/
def CDecl.renderArgs (d : CDecl) : String :=
  if d.params.isEmpty then voidArg
  else String.intercalate commaSep (d.params.map CParam.render)

/-- The C text of one declaration, a prototype ended by a semicolon. -/
def CDecl.render (d : CDecl) : String :=
  d.ret.render ++ " " ++ d.name ++ "(" ++ d.renderArgs ++ protoEnd

/-- A header line that is a function prototype: it ends in a close paren
and a semicolon. -/
def isSignatureLine (l : String) : Bool :=
  l.data.reverse.take protoEnd.data.length == protoEnd.data.reverse

/-- The opening brace character, the marker of a C function body or of an
aggregate definition. -/
def openBrace : Char := Char.ofNat 123

/-- The closing brace character. -/
def closeBrace : Char := Char.ofNat 125

/-- The macro name used as the include guard. -/
def includeGuard : String := "longhorn_mobile_h"

/-- One preprocessor pass over longhorn_mobile.h: given the set of macros
already defined, `#ifndef longhorn_mobile_h` skips the whole body when the
guard is defined; otherwise `#define longhorn_mobile_h` records it and the
ten declarations are contributed. Returns the new macro set and the
declarations this inclusion contributes. -/
def includeOnce (defined : List String) : List String × List CDecl :=
  if includeGuard ∈ defined then (defined, [])
  else (includeGuard :: defined, headerDecls)

/-- Including the header `n` times in a row in one translation unit,
accumulating all contributed declarations. -/
def includeMany : Nat → List String → List String × List CDecl
  | 0, defined => (defined, [])
  | n + 1, defined =>
      let first := includeOnce defined
      let rest := includeMany n first.1
      (rest.1, first.2 ++ rest.2)

/-- The ten entry points, as abstract events of a host call trace. -/
inductive EntryPoint where
  | initEv
  | createWithMetalEv
  | loadGameEv
  | startEv
  | updateEv
  | touchStartEv
  | touchMoveEv
  | touchEndEv
  | resizeEv
  | cleanupEv
  deriving DecidableEq, Repr

/-- Modelled from the spec: the source supplies only the declarations, not
the protocol, so the fixed lifecycle order the spec states for host code
(init, then create-with-surface, then load-game, then start, then repeated
update/touch/resize calls, then cleanup) is embedded as the phases of a
host program driving the interface. -/
inductive Phase where
  | fresh
  | inited
  | surfaced
  | loaded
  | running
  | done
  deriving DecidableEq, Repr

/-- Modelled from the spec: the transition relation of the lifecycle
protocol; `none` means the call is not permitted in that phase. -/
def step : Phase → EntryPoint → Option Phase
  | .fresh, .initEv => some .inited
  | .inited, .createWithMetalEv => some .surfaced
  | .surfaced, .loadGameEv => some .loaded
  | .loaded, .startEv => some .running
  | .running, .updateEv => some .running
  | .running, .touchStartEv => some .running
  | .running, .touchMoveEv => some .running
  | .running, .touchEndEv => some .running
  | .running, .resizeEv => some .running
  | .running, .cleanupEv => some .done
  | _, _ => none

/-- Run a call trace through the protocol from a phase; `none` when some
call violates the protocol. -/
def run : Phase → List EntryPoint → Option Phase
  | p, [] => some p
  | p, e :: es =>
      match step p e with
      | some q => run q es
      | none => none

/-- A correct host program: a complete call trace the protocol accepts,
from the fresh phase through to the done phase. -/
def correctHostTrace (tr : List EntryPoint) : Prop :=
  run Phase.fresh tr = some Phase.done

/-- The events permitted between start and cleanup. -/
def frameEvents : List EntryPoint :=
  [ .updateEv, .touchStartEv, .touchMoveEv, .touchEndEv, .resizeEv ]

/-- What a call with a parameter of type `t` may do to the string the
caller's pointer argument refers to: change it only when the type permits
writing through the pointer. -/
def allowedPointeeChange (t : CType) (before after : String) : Prop :=
  t.mayWriteThrough = true ∨ after = before

/-- A sample path string, used as a concrete input. -/
def samplePath : String := "level1.game"

/-- Once the guard is defined, any further sequence of inclusions defines
nothing new and contributes no declaration. -/
theorem includeMany_guarded (n : Nat) (defined : List String)
    (h : includeGuard ∈ defined) :
    includeMany n defined = (defined, []) := by
  induction n with
  | zero => rfl
  | succ k ih => simp [includeMany, includeOnce, h, ih]

/-- After cleanup the protocol permits no further call. -/
theorem run_done_nil (l : List EntryPoint) (p : Phase)
    (h : run Phase.done l = some p) : l = [] := by
  cases l with
  | nil => rfl
  | cons e es => cases e <;> simp [run, step] at h

/-- From the running phase, an accepted remainder of a trace is a block of
frame events closed by exactly one cleanup call. -/
theorem run_running_shape :
    ∀ tr : List EntryPoint, run Phase.running tr = some Phase.done →
      ∃ mid, tr = mid ++ [EntryPoint.cleanupEv] ∧ ∀ e ∈ mid, e ∈ frameEvents := by
  intro tr
  induction tr with
  | nil => intro h; simp [run] at h
  | cons e es ih =>
      intro h
      cases e
      case cleanupEv =>
        have h2 : run Phase.done es = some Phase.done := by
          simpa [run, step] using h
        have hes : es = [] := run_done_nil es Phase.done h2
        subst hes
        exact ⟨[], rfl, by simp⟩
      case initEv => simp [run, step] at h
      case createWithMetalEv => simp [run, step] at h
      case loadGameEv => simp [run, step] at h
      case startEv => simp [run, step] at h
      all_goals
        have h2 : run Phase.running es = some Phase.done := by
          simpa [run, step] using h
      all_goals
        obtain ⟨mid, hm, hall⟩ := ih h2
      all_goals
        subst hm
      all_goals
        refine ⟨_ :: mid, rfl, ?_⟩
      all_goals
        intro x hx
      all_goals
        rcases List.mem_cons.mp hx with hx | hx
      all_goals
        first
        | (subst hx; decide)
        | exact hall x hx

/-- C1: the interface declared by longhorn_mobile.h is exactly the ten
entry points, in the stated groups, and nothing else is declared. -/
theorem header_exactly_ten_entry_points :
    headerDecls.map CDecl.name =
      [ "longhorn_init", "longhorn_create_with_metal", "longhorn_load_game"
      , "longhorn_start", "longhorn_update"
      , "longhorn_handle_touch_start", "longhorn_handle_touch_move"
      , "longhorn_handle_touch_end"
      , "longhorn_resize", "longhorn_cleanup" ]
    ∧ headerDecls.length = 10 :=
  ⟨rfl, rfl⟩

/-- C2: exactly the five lifecycle functions other than cleanup return a
boolean; the other five return void; every return type is one of those
two, so the booleans are the only error channel the interface has. -/
theorem header_boolean_error_channel :
    (headerDecls.filter (fun d => d.ret == CType.bool)).map CDecl.name =
      [ "longhorn_init", "longhorn_create_with_metal", "longhorn_load_game"
      , "longhorn_start", "longhorn_update" ]
    ∧ (headerDecls.filter (fun d => d.ret == CType.voidTy)).map CDecl.name =
      [ "longhorn_handle_touch_start", "longhorn_handle_touch_move"
      , "longhorn_handle_touch_end"
      , "longhorn_resize", "longhorn_cleanup" ]
    ∧ headerDecls.all (fun d => d.ret == CType.bool || d.ret == CType.voidTy) = true :=
  ⟨rfl, rfl, rfl⟩

/-- C3: longhorn_create_with_metal takes an opaque untyped pointer plus a
32-bit unsigned width and height, and returns a boolean. -/
theorem create_with_metal_signature :
    longhorn_create_with_metal.params.map CParam.type =
      [CType.voidPtr, CType.u32, CType.u32]
    ∧ longhorn_create_with_metal.params.length = 3
    ∧ CType.isOpaquePointer CType.voidPtr = true
    ∧ CType.bits CType.u32 = some 32
    ∧ CType.isUnsignedInt CType.u32 = true
    ∧ longhorn_create_with_metal.ret = CType.bool :=
  ⟨rfl, rfl, rfl, rfl, rfl, rfl⟩

/-- C4: every complete call trace the lifecycle protocol accepts is init,
then create-with-metal, then load-game, then start, then a run of
update/touch/resize calls, then cleanup; no accepted trace departs from
that order. -/
theorem lifecycle_fixed_order (tr : List EntryPoint) (h : correctHostTrace tr) :
    ∃ mid,
      tr = [ EntryPoint.initEv, EntryPoint.createWithMetalEv
           , EntryPoint.loadGameEv, EntryPoint.startEv ] ++ mid
           ++ [EntryPoint.cleanupEv]
      ∧ ∀ e ∈ mid, e ∈ frameEvents := by
  unfold correctHostTrace at h
  rcases tr with _ | ⟨e1, tr⟩
  · simp [run] at h
  cases e1 <;> simp [run, step] at h
  rcases tr with _ | ⟨e2, tr⟩
  · simp [run] at h
  cases e2 <;> simp [run, step] at h
  rcases tr with _ | ⟨e3, tr⟩
  · simp [run] at h
  cases e3 <;> simp [run, step] at h
  rcases tr with _ | ⟨e4, tr⟩
  · simp [run] at h
  cases e4 <;> simp [run, step] at h
  obtain ⟨mid, hm, hall⟩ := run_running_shape tr h
  subst hm
  exact ⟨mid, rfl, hall⟩

/-- Witness for C4: a concrete accepted trace, with one update, one touch
and one resize between start and cleanup, has the stated shape. -/
theorem lifecycle_fixed_order_witness :
    ∃ mid,
      ([ EntryPoint.initEv, EntryPoint.createWithMetalEv, EntryPoint.loadGameEv
       , EntryPoint.startEv, EntryPoint.updateEv, EntryPoint.touchStartEv
       , EntryPoint.touchEndEv, EntryPoint.resizeEv, EntryPoint.cleanupEv ]
        : List EntryPoint) =
      [ EntryPoint.initEv, EntryPoint.createWithMetalEv
      , EntryPoint.loadGameEv, EntryPoint.startEv ] ++ mid
      ++ [EntryPoint.cleanupEv]
      ∧ ∀ e ∈ mid, e ∈ frameEvents :=
  lifecycle_fixed_order _ (by rfl)

/-- C5: longhorn_load_game takes one parameter, a pointer to a character
string, and returns a boolean. -/
theorem load_game_signature :
    longhorn_load_game.params = [⟨"path", CType.constCharPtr⟩]
    ∧ longhorn_load_game.params.length = 1
    ∧ longhorn_load_game.ret = CType.bool :=
  ⟨rfl, rfl, rfl⟩

/-- C6: each touch handler takes two float coordinates x and y and
returns void. -/
theorem touch_handlers_signature :
    longhorn_handle_touch_start.params = [⟨"x", CType.f32⟩, ⟨"y", CType.f32⟩]
    ∧ longhorn_handle_touch_start.ret = CType.voidTy
    ∧ longhorn_handle_touch_move.params = [⟨"x", CType.f32⟩, ⟨"y", CType.f32⟩]
    ∧ longhorn_handle_touch_move.ret = CType.voidTy
    ∧ longhorn_handle_touch_end.params = [⟨"x", CType.f32⟩, ⟨"y", CType.f32⟩]
    ∧ longhorn_handle_touch_end.ret = CType.voidTy :=
  ⟨rfl, rfl, rfl, rfl, rfl, rfl⟩

/-- C7: longhorn_resize takes a 32-bit unsigned width and height and
returns void; longhorn_cleanup takes nothing and returns void. -/
theorem resize_cleanup_signature :
    longhorn_resize.params =
      [⟨"width", CType.u32⟩, ⟨"height", CType.u32⟩]
    ∧ CType.bits CType.u32 = some 32
    ∧ CType.isUnsignedInt CType.u32 = true
    ∧ longhorn_resize.ret = CType.voidTy
    ∧ longhorn_cleanup.params = []
    ∧ longhorn_cleanup.ret = CType.voidTy :=
  ⟨rfl, rfl, rfl, rfl, rfl, rfl⟩

/-- C8: the header is 18 lines, holds no brace (so no function body and no
aggregate definition), and its prototype lines are exactly the renderings
of the ten declarations, in order: signatures only. -/
theorem header_declaration_only :
    headerLines.length = 18
    ∧ headerLines.all
        (fun l => !(l.data.contains openBrace) && !(l.data.contains closeBrace)) = true
    ∧ headerLines.filter isSignatureLine = headerDecls.map CDecl.render
    ∧ (headerLines.filter isSignatureLine).length = 10 :=
  ⟨rfl, by rfl, by rfl, by rfl⟩

/-- C9: under the include-guard semantics, n + 1 inclusions of the header
in one translation unit contribute the same declarations as a single
inclusion: every inclusion after the first contributes nothing. -/
theorem include_idempotent (n : Nat) :
    (includeMany (n + 1) []).2 = headerDecls
    ∧ (includeMany (n + 1) []).2 = (includeMany 1 []).2 := by
  have h2 : includeMany n [includeGuard] = ([includeGuard], []) :=
    includeMany_guarded n [includeGuard] (List.mem_singleton.mpr rfl)
  refine ⟨?_, ?_⟩ <;> simp [includeMany, includeOnce, h2]

/-- C10: the path parameter of longhorn_load_game is const-qualified, and
any change to the caller's string that the signature permits is no change
at all: the call leaves the path string as it was. -/
theorem load_game_path_unmodified (before after : String)
    (h : allowedPointeeChange CType.constCharPtr before after) :
    longhorn_load_game.params.map CParam.type = [CType.constCharPtr]
    ∧ CType.isConstQualified CType.constCharPtr = true
    ∧ after = before := by
  refine ⟨rfl, rfl, ?_⟩
  rcases h with h | h
  · exact absurd h (by decide)
  · exact h

/-- Witness for C10: at the sample path, the permitted-change relation is
satisfied and the string is unchanged. -/
theorem load_game_path_unmodified_witness :
    longhorn_load_game.params.map CParam.type = [CType.constCharPtr]
    ∧ CType.isConstQualified CType.constCharPtr = true
    ∧ samplePath = samplePath :=
  load_game_path_unmodified samplePath samplePath (Or.inr rfl)

end LonghornMobile
